import Mathlib

/-!
Shallow embedding of the beneficiary data model and operations of the SMS
notification page (src/src/app/page.tsx), together with theorems settling
the specification claims about it.

The page keeps an in-memory list of beneficiaries, fills it from imported
spreadsheet rows (string-keyed records) or manual form entries, removes
entries by position, clears the list, composes a per-beneficiary SMS text
from a shared notification date, and runs a stubbed batch send.
-/

namespace SMSApp

/-- Payment method enumeration from the `Beneficiary` interface:
`'cash' | 'transfer'`. -/
inductive PaymentMethod where
  | cash
  | transfer
  deriving DecidableEq

/-- The `Beneficiary` interface: `name`, `phone`, `reference` strings, a
payment method, and an optional `accountNumber`. -/
structure Beneficiary where
  name : String
  phone : String
  reference : String
  paymentMethod : PaymentMethod
  accountNumber : Option String
  deriving DecidableEq

/-- An imported spreadsheet row as produced by `sheet_to_json`: a
string-keyed record of string cells, embedded as an association list.
Key access `row[k]` is first-match lookup. -/
abbrev Row : Type := List (String × String)

/-- JavaScript `row[k1] || row[k2] || ... || dflt` on string-valued fields:
the chain skips a key that is absent (`undefined`) or whose value is the
empty string (both falsy), and falls back to the default. -/
def resolveField (row : Row) (keys : List String) (dflt : String) : String :=
  match keys with
  | [] => dflt
  | k :: ks =>
    match List.lookup k row with
    | some v => if v = "" then resolveField row ks dflt else v
    | none => resolveField row ks dflt

/-- JavaScript `row[k1] || row[k2] || undefined`: as `resolveField` but the
fallback is `undefined` (`none`). Used for the optional account number. -/
def resolveOptField (row : Row) (keys : List String) : Option String :=
  match keys with
  | [] => none
  | k :: ks =>
    match List.lookup k row with
    | some v => if v = "" then resolveOptField row ks else some v
    | none => resolveOptField row ks

/-- Charwise lowercasing, embedding JavaScript `toLowerCase()` on the
alphabet actually involved in the comparison against `"virement"`. -/
def toLowerCase (s : String) : String := ⟨s.data.map Char.toLower⟩

/-- Alias list for the `name` field. -/
def nameAliases : List String := ["Nom", "Bénéficiaire", "Name"]

/-- Alias list for the `phone` field. -/
def phoneAliases : List String := ["Téléphone", "Phone", "Numéro"]

/-- Alias list for the `reference` field. -/
def referenceAliases : List String := ["Référence", "Bulletin", "Reference"]

/-- Alias list for the payment mode field. -/
def modeAliases : List String := ["Méthode", "Mode"]

/-- Alias list for the optional account number field. -/
def accountAliases : List String := ["Compte", "IBAN"]

/-- The row-to-beneficiary mapping in `handleFileUpload` (page.tsx lines
37-43): each field is an alias `||`-chain, the payment method is
`transfer` exactly when the resolved mode lowercases to `"virement"`. -/
def rowToBeneficiary (row : Row) : Beneficiary :=
  { name := resolveField row nameAliases ""
    phone := resolveField row phoneAliases ""
    reference := resolveField row referenceAliases ""
    paymentMethod :=
      if toLowerCase (resolveField row modeAliases "cash") = "virement" then
        PaymentMethod.transfer
      else
        PaymentMethod.cash
    accountNumber := resolveOptField row accountAliases }

/-- The component state touched by the handlers: the beneficiary list, the
shared notification date, the sending flag, and the success banner. -/
structure AppState where
  beneficiaries : List Beneficiary
  notificationDate : String
  isSending : Bool
  successMessage : Option String
  deriving DecidableEq

/-- `generateSMSMessage` (page.tsx lines 65-71): greeting with the name, a
line with the reference and the shared date, and a closing line chosen by
the payment method. -/
def generateSMSMessage (notificationDate : String) (b : Beneficiary) : String :=
  let baseMessage := "Bonjour " ++ b.name ++ "\nVotre bon de commande " ++
    b.reference ++ " sera payé le " ++ notificationDate ++ "."
  match b.paymentMethod with
  | PaymentMethod.cash => baseMessage ++ "\nVous pouvez passer à la trésorerie."
  | PaymentMethod.transfer => baseMessage ++ "\nLe virement a été effectué sur votre compte."

/-- The import flow of `handleFileUpload` (page.tsx lines 24-52): the
success banner is cleared on file selection, then the loaded data is
parsed; on success every row is mapped and appended and a count banner is
set, on parse failure a single alert is emitted and the list is untouched.
The parse outcome of the external spreadsheet library is the `Except`
argument. Returns the new state and the emitted alerts. -/
def handleFileUpload (s : AppState) (parsed : Except Unit (List Row)) :
    AppState × List String :=
  let cleared := { s with successMessage := none }
  match parsed with
  | Except.ok rows =>
    let newBeneficiaries := rows.map rowToBeneficiary
    let banner := toString newBeneficiaries.length ++ " bénéficiaires ajoutés depuis le fichier"
    ({ cleared with
        beneficiaries := cleared.beneficiaries ++ newBeneficiaries
        successMessage := some banner },
      [])
  | Except.error _ =>
    (cleared, ["Erreur lors de la lecture du fichier. Vérifiez le format."])

/-- `addManualEntry` (page.tsx lines 54-58): appends the submitted record
and sets the success banner. -/
def addManualEntry (s : AppState) (data : Beneficiary) : AppState :=
  { s with
      beneficiaries := s.beneficiaries ++ [data]
      successMessage := some "Bénéficiaire ajouté avec succès" }

/-- The list update of `removeBeneficiary` (page.tsx line 61):
`prev.filter((_, i) => i !== index)`. The JavaScript index may be any
number, so it is embedded as an integer compared against the natural
positions. -/
def removeBeneficiaryFilter (l : List Beneficiary) (index : Int) : List Beneficiary :=
  (l.enum.filter (fun p => decide ((p.1 : Int) ≠ index))).map Prod.snd

/-- `removeBeneficiary` (page.tsx lines 60-63): filters out the given
position and sets the success banner. -/
def removeBeneficiary (s : AppState) (index : Int) : AppState :=
  { s with
      beneficiaries := removeBeneficiaryFilter s.beneficiaries index
      successMessage := some "Bénéficiaire supprimé" }

/-- The clear-all button action (page.tsx lines 189-196 and 270-280):
`setBeneficiaries([])`. -/
def clearAll (s : AppState) : AppState :=
  { s with beneficiaries := [] }

/-- `sendNotifications` (page.tsx lines 73-95): returns immediately on an
empty list; otherwise sets the sending flag, clears the banner, dispatches
one `(phone, message)` pair per beneficiary (or fails as a whole, which
the Boolean argument abstracts), sets the outcome banner, and finally
clears the sending flag. Returns the final state, the dispatched pairs,
and the sequence of states reached, in order. -/
def sendNotifications (s : AppState) (apiOk : Bool) :
    AppState × List (String × String) × List AppState :=
  if s.beneficiaries.length = 0 then (s, [], [s])
  else
    let s1 := { s with isSending := true, successMessage := none }
    if apiOk then
      let sent := s.beneficiaries.map
        (fun b => (b.phone, generateSMSMessage s.notificationDate b))
      let banner := "✅ " ++ toString s.beneficiaries.length ++ " notifications envoyées avec succès"
      let s2 := { s1 with successMessage := some banner }
      let s3 := { s2 with isSending := false }
      (s3, sent, [s, s1, s2, s3])
    else
      let s2 := { s1 with isSending := false }
      (s2, [], [s, s1, s2])

/-- The cash closing line of the composed message. -/
def treasuryLine : String := "Vous pouvez passer à la trésorerie."

/-- The transfer closing line of the composed message. -/
def transferLine : String := "Le virement a été effectué sur votre compte."

/-- Substring containment on strings, as containment of character
sequences. -/
def containsSubstring (s pat : String) : Prop := pat.data <:+: s.data

instance (s pat : String) : Decidable (containsSubstring s pat) :=
  inferInstanceAs (Decidable (pat.data <:+: s.data))

/-- A stored record with the three required fields non-empty. -/
def nonEmptyRecord (b : Beneficiary) : Prop :=
  b.name ≠ "" ∧ b.phone ≠ "" ∧ b.reference ≠ ""

instance (b : Beneficiary) : Decidable (nonEmptyRecord b) :=
  inferInstanceAs (Decidable (b.name ≠ "" ∧ b.phone ≠ "" ∧ b.reference ≠ ""))

/-- The spec invariant: every stored record has non-empty name, phone and
reference. -/
def storeInvariant (l : List Beneficiary) : Prop :=
  ∀ b ∈ l, nonEmptyRecord b

instance (l : List Beneficiary) : Decidable (storeInvariant l) :=
  inferInstanceAs (Decidable (∀ b ∈ l, nonEmptyRecord b))

/-- Literal spec reading of alias resolution: the value of the first alias
key present in the record, regardless of that value, else the default. -/
def firstFoundField (row : Row) (keys : List String) (dflt : String) : String :=
  match keys with
  | [] => dflt
  | k :: ks =>
    match List.lookup k row with
    | some v => v
    | none => firstFoundField row ks dflt

/-- Amended spec reading of alias resolution: the first value among the
alias keys that is present and non-empty, else the default. -/
def firstNonEmptyField (row : Row) (keys : List String) (dflt : String) : String :=
  (keys.filterMap (fun k =>
    match List.lookup k row with
    | some v => if v = "" then none else some v
    | none => none)).headD dflt

/-- Sample record paid in cash. -/
def sampleCash : Beneficiary := ⟨"Ali", "0600", "B1", PaymentMethod.cash, none⟩

/-- Sample record paid by transfer. -/
def sampleTransfer : Beneficiary := ⟨"Sara", "0611", "B2", PaymentMethod.transfer, some "FR76"⟩

theorem enumFrom_cons_eq (a : Beneficiary) (l : List Beneficiary) (n : Nat) :
    List.enumFrom n (a :: l) = (n, a) :: List.enumFrom (n + 1) l := rfl

theorem removeFilter_enumFrom_out (l : List Beneficiary) (n : Nat) (idx : Int)
    (h : idx < (n : Int) ∨ (n : Int) + l.length ≤ idx) :
    ((List.enumFrom n l).filter (fun p => decide ((p.1 : Int) ≠ idx))).map Prod.snd = l := by
  induction l generalizing n with
  | nil => rfl
  | cons a l ih =>
    have hne : (n : Int) ≠ idx := by
      rcases h with h | h
      · omega
      · simp only [List.length_cons] at h
        push_cast at h
        omega
    rw [enumFrom_cons_eq, List.filter_cons]
    simp only [decide_eq_true hne, if_true, List.map_cons]
    have hih : idx < ((n + 1 : Nat) : Int) ∨ ((n + 1 : Nat) : Int) + l.length ≤ idx := by
      rcases h with h | h
      · left; push_cast; omega
      · right
        simp only [List.length_cons] at h
        push_cast at h ⊢
        omega
    rw [ih (n + 1) hih]

theorem removeFilter_enumFrom_in (l : List Beneficiary) (n : Nat) (idx : Int)
    (h1 : (n : Int) ≤ idx) (h2 : idx < (n : Int) + l.length) :
    ((List.enumFrom n l).filter (fun p => decide ((p.1 : Int) ≠ idx))).map Prod.snd =
      l.take (idx - n).toNat ++ l.drop ((idx - n).toNat + 1) := by
  induction l generalizing n with
  | nil =>
    simp only [List.length_nil] at h2
    omega
  | cons a l ih =>
    rw [enumFrom_cons_eq, List.filter_cons]
    by_cases hEq : (n : Int) = idx
    · have hd : (decide ((n : Int) ≠ idx)) = false := by simp [hEq]
      rw [hd]
      have h0 : (idx - n).toNat = 0 := by omega
      rw [h0]
      simp only [if_false, List.take_zero, List.drop_succ_cons, List.drop_zero,
        List.nil_append]
      exact removeFilter_enumFrom_out l (n + 1) idx (Or.inl (by push_cast; omega))
    · have hne : (n : Int) ≠ idx := hEq
      rw [decide_eq_true hne]
      have hk : (idx - n).toNat = (idx - ((n + 1 : Nat) : Int)).toNat + 1 := by
        push_cast
        omega
      rw [hk]
      simp only [if_true, List.map_cons, List.take_succ_cons, List.drop_succ_cons]
      have hih1 : ((n + 1 : Nat) : Int) ≤ idx := by push_cast; omega
      have hih2 : idx < ((n + 1 : Nat) : Int) + l.length := by
        simp only [List.length_cons] at h2
        push_cast at h2 ⊢
        omega
      rw [ih (n + 1) hih1 hih2]
      rfl

theorem removeFilter_eq_enumFrom_zero (l : List Beneficiary) (idx : Int) :
    removeBeneficiaryFilter l idx =
      ((List.enumFrom 0 l).filter (fun p => decide ((p.1 : Int) ≠ idx))).map Prod.snd := rfl

/-- C8: on a collection of length N and an index 0 ≤ i < N, the remove
operation deletes exactly the element at position i — the result is the
prefix before i followed by the suffix after i — and has length N - 1. -/
theorem remove_at_valid_index (l : List Beneficiary) (idx : Int)
    (h1 : 0 ≤ idx) (h2 : idx < l.length) :
    removeBeneficiaryFilter l idx = l.take idx.toNat ++ l.drop (idx.toNat + 1) ∧
    (removeBeneficiaryFilter l idx).length = l.length - 1 := by
  have key : removeBeneficiaryFilter l idx = l.take idx.toNat ++ l.drop (idx.toNat + 1) := by
    rw [removeFilter_eq_enumFrom_zero]
    have := removeFilter_enumFrom_in l 0 idx (by push_cast; omega) (by push_cast; omega)
    rw [this]
    norm_num
  refine ⟨key, ?_⟩
  rw [key, List.length_append, List.length_take, List.length_drop]
  omega

/-- C8 witness: removing index 1 from a three-element list. -/
theorem remove_at_valid_index_witness :
    removeBeneficiaryFilter [sampleCash, sampleTransfer, sampleCash] 1 =
      [sampleCash, sampleTransfer, sampleCash].take (1 : Int).toNat ++
        [sampleCash, sampleTransfer, sampleCash].drop ((1 : Int).toNat + 1) ∧
    (removeBeneficiaryFilter [sampleCash, sampleTransfer, sampleCash] 1).length =
      [sampleCash, sampleTransfer, sampleCash].length - 1 :=
  remove_at_valid_index [sampleCash, sampleTransfer, sampleCash] 1 (by decide) (by decide)

/-- C10: an index outside the valid range (negative or not below the
length) makes the remove operation a silent no-op. -/
theorem remove_at_out_of_range_noop (l : List Beneficiary) (idx : Int)
    (h : idx < 0 ∨ (l.length : Int) ≤ idx) :
    removeBeneficiaryFilter l idx = l := by
  rw [removeFilter_eq_enumFrom_zero]
  refine removeFilter_enumFrom_out l 0 idx ?_
  rcases h with h | h
  · left; push_cast; omega
  · right; push_cast; omega

/-- C10 witness: removing index 5 from a one-element list changes
nothing. -/
theorem remove_at_out_of_range_noop_witness :
    removeBeneficiaryFilter [sampleCash] 5 = [sampleCash] :=
  remove_at_out_of_range_noop [sampleCash] 5 (Or.inr (by decide))

/-- C9: the clear-all action empties the collection, whatever the state
was. -/
theorem clear_yields_empty (s : AppState) : (clearAll s).beneficiaries.length = 0 := rfl

/-- C4: when the parse step of an import fails, exactly one alert is
reported and the beneficiary collection is unchanged — no partial
import. -/
theorem import_parse_failure_no_partial (s : AppState) (e : Unit) :
    (handleFileUpload s (Except.error e)).1.beneficiaries = s.beneficiaries ∧
    (handleFileUpload s (Except.error e)).2 =
      ["Erreur lors de la lecture du fichier. Vérifiez le format."] :=
  ⟨rfl, rfl⟩

/-- C5: a successful import appends exactly one mapped beneficiary per
input row at the end, in input order, rejecting nothing, and the reported
count equals the number of rows. -/
theorem import_appends_one_per_row (s : AppState) (rows : List Row) :
    (handleFileUpload s (Except.ok rows)).1.beneficiaries =
      s.beneficiaries ++ rows.map rowToBeneficiary ∧
    (rows.map rowToBeneficiary).length = rows.length ∧
    (handleFileUpload s (Except.ok rows)).1.successMessage =
      some (toString rows.length ++ " bénéficiaires ajoutés depuis le fichier") := by
  refine ⟨rfl, by simp, ?_⟩
  simp [handleFileUpload]

/-- C6: the batch send on an empty collection is a no-op: the final state
is the initial one, nothing is dispatched, and no reached state has a
different sending flag. -/
theorem send_empty_noop (s : AppState) (apiOk : Bool) (h : s.beneficiaries = []) :
    (sendNotifications s apiOk).1 = s ∧
    (sendNotifications s apiOk).2.1 = [] ∧
    ∀ t ∈ (sendNotifications s apiOk).2.2, t.isSending = s.isSending := by
  simp [sendNotifications, h]

/-- C6 witness: batch send on the empty initial state. -/
theorem send_empty_noop_witness :
    (sendNotifications ⟨[], "2024-01-01", false, none⟩ true).1 =
      (⟨[], "2024-01-01", false, none⟩ : AppState) ∧
    (sendNotifications ⟨[], "2024-01-01", false, none⟩ true).2.1 = [] ∧
    ∀ t ∈ (sendNotifications ⟨[], "2024-01-01", false, none⟩ true).2.2,
      t.isSending = (⟨[], "2024-01-01", false, none⟩ : AppState).isSending :=
  send_empty_noop ⟨[], "2024-01-01", false, none⟩ true rfl

/-- C7: the composed message never interpolates the account number: two
records equal on every other field produce identical messages for any
date. -/
theorem account_number_not_in_message (b1 b2 : Beneficiary) (d : String)
    (hn : b1.name = b2.name) (_hp : b1.phone = b2.phone)
    (hr : b1.reference = b2.reference) (hm : b1.paymentMethod = b2.paymentMethod) :
    generateSMSMessage d b1 = generateSMSMessage d b2 := by
  simp only [generateSMSMessage, hn, hr, hm]

/-- C7 witness: two transfer records differing only in the account
number. -/
theorem account_number_not_in_message_witness :
    generateSMSMessage "2024-01-01" ⟨"Sara", "0611", "B2", PaymentMethod.transfer, some "FR76"⟩ =
    generateSMSMessage "2024-01-01" ⟨"Sara", "0611", "B2", PaymentMethod.transfer, none⟩ :=
  account_number_not_in_message _ _ _ rfl rfl rfl rfl

theorem resolveField_eq_firstNonEmpty (row : Row) (keys : List String) (dflt : String) :
    resolveField row keys dflt = firstNonEmptyField row keys dflt := by
  induction keys with
  | nil => rfl
  | cons k ks ih =>
    simp only [resolveField, firstNonEmptyField, List.filterMap_cons]
    cases hlk : List.lookup k row with
    | none =>
      simp only [hlk]
      exact ih
    | some v =>
      by_cases hv : v = ""
      · simp only [hlk, hv, if_pos rfl]
        exact ih
      · simp only [hlk, if_neg hv, List.headD_cons]

/-- C1 (counterexample): on the row with `Nom` present but empty and
`Name` set to Sara, the code resolves the name to Sara, while the first
alias found in the record is `Nom`, whose value is the empty string. -/
theorem import_alias_first_found_cex :
    ¬ ((rowToBeneficiary [("Nom", ""), ("Name", "Sara")]).name =
        firstFoundField [("Nom", ""), ("Name", "Sara")] nameAliases "") := by
  decide

/-- C1 (amended): each field of an imported beneficiary is resolved to
the first alias value that is present and non-empty — the `||` chain
skips empty strings — defaulting to the empty string (for the mode, to
cash) when none is; the payment method is transfer exactly when the mode
so resolved case-insensitively equals virement, and cash otherwise. -/
theorem import_alias_resolution_amended (row : Row) :
    (rowToBeneficiary row).name = firstNonEmptyField row nameAliases "" ∧
    (rowToBeneficiary row).phone = firstNonEmptyField row phoneAliases "" ∧
    (rowToBeneficiary row).reference = firstNonEmptyField row referenceAliases "" ∧
    ((rowToBeneficiary row).paymentMethod = PaymentMethod.transfer ↔
      toLowerCase (firstNonEmptyField row modeAliases "cash") = "virement") ∧
    ((rowToBeneficiary row).paymentMethod = PaymentMethod.cash ↔
      ¬ toLowerCase (firstNonEmptyField row modeAliases "cash") = "virement") := by
  rw [← resolveField_eq_firstNonEmpty, ← resolveField_eq_firstNonEmpty,
    ← resolveField_eq_firstNonEmpty, ← resolveField_eq_firstNonEmpty]
  refine ⟨rfl, rfl, rfl, ?_, ?_⟩
  · by_cases hm : toLowerCase (resolveField row modeAliases "cash") = "virement" <;>
      simp [rowToBeneficiary, hm]
  · by_cases hm : toLowerCase (resolveField row modeAliases "cash") = "virement" <;>
      simp [rowToBeneficiary, hm]

theorem removeFilter_sublist (l : List Beneficiary) (idx : Int) :
    List.Sublist (removeBeneficiaryFilter l idx) l := by
  have h1 : List.Sublist (l.enum.filter (fun p => decide ((p.1 : Int) ≠ idx))) l.enum :=
    List.filter_sublist l.enum
  have h2 := h1.map Prod.snd
  rw [List.enum_map_snd] at h2
  exact h2

/-- C3 (counterexample): importing one row with no recognized non-empty
field stores a record violating the non-emptiness invariant. -/
theorem store_nonempty_invariant_cex :
    ¬ storeInvariant
        ((handleFileUpload ⟨[], "2024-01-01", false, none⟩ (Except.ok [[]])).1.beneficiaries) := by
  decide

/-- C3 (amended): the non-emptiness invariant is preserved by removal,
by clear, by failed imports and by manual addition of a record with
non-empty fields, and by imports whose rows each resolve a non-empty
name, phone and reference; a row resolving none of them is still
appended, with empty strings, so the unconditional invariant fails on
the import path. -/
theorem store_nonempty_invariant_amended (s : AppState)
    (hInv : storeInvariant s.beneficiaries) :
    (∀ rows : List Row, (∀ row ∈ rows, nonEmptyRecord (rowToBeneficiary row)) →
      storeInvariant ((handleFileUpload s (Except.ok rows)).1.beneficiaries)) ∧
    (∀ e : Unit, storeInvariant ((handleFileUpload s (Except.error e)).1.beneficiaries)) ∧
    (∀ data : Beneficiary, nonEmptyRecord data →
      storeInvariant ((addManualEntry s data).beneficiaries)) ∧
    (∀ idx : Int, storeInvariant ((removeBeneficiary s idx).beneficiaries)) ∧
    storeInvariant ((clearAll s).beneficiaries) := by
  refine ⟨?_, ?_, ?_, ?_, ?_⟩
  · intro rows hrows b hb
    simp only [handleFileUpload] at hb
    rcases List.mem_append.mp hb with hb | hb
    · exact hInv b hb
    · obtain ⟨row, hrow, rfl⟩ := List.mem_map.mp hb
      exact hrows row hrow
  · intro e b hb
    exact hInv b hb
  · intro data hdata b hb
    simp only [addManualEntry] at hb
    rcases List.mem_append.mp hb with hb | hb
    · exact hInv b hb
    · obtain rfl := List.mem_singleton.mp hb
      exact hdata
  · intro idx b hb
    exact hInv b ((removeFilter_sublist s.beneficiaries idx).subset hb)
  · intro b hb
    exact absurd hb (List.not_mem_nil b)

/-- C3 witness: importing a fully specified row into the empty store
keeps the invariant. -/
theorem store_nonempty_invariant_amended_witness :
    storeInvariant
      ((handleFileUpload ⟨[], "2024-01-01", false, none⟩
          (Except.ok [[("Nom", "Ali"), ("Téléphone", "0600"), ("Référence", "B1")]])).1.beneficiaries) :=
  (store_nonempty_invariant_amended ⟨[], "2024-01-01", false, none⟩ (by decide)).1
    [[("Nom", "Ali"), ("Téléphone", "0600"), ("Référence", "B1")]] (by decide)

theorem contained_of_suffix {l m : List Char} (h : l <:+ m) : l <:+: m := by
  obtain ⟨s, hs⟩ := h
  exact ⟨s, [], by simp [hs]⟩

theorem contained_cons {l m : List Char} (a : Char) (h : l <:+: m) : l <:+: a :: m := by
  obtain ⟨s, t, hst⟩ := h
  exact ⟨a :: s, t, by simp [hst]⟩

theorem pattern_skip_block {c : Char} {t l m : List Char} (hc : c ∉ l)
    (h : (c :: t) <:+: (l ++ m)) : (c :: t) <:+: m := by
  obtain ⟨u, v, huv⟩ := h
  rw [List.append_assoc] at huv
  rcases List.append_eq_append_iff.mp huv with ⟨e, he1, he2⟩ | ⟨e, he1, he2⟩
  · cases e with
    | nil =>
      simp only [List.nil_append] at he2
      exact ⟨[], v, by simp [he2]⟩
    | cons x e2 =>
      exfalso
      simp only [List.cons_append] at he2
      injection he2 with hx _
      apply hc
      rw [he1, ← hx]
      simp
  · exact ⟨e, v, by simp [he2]⟩

theorem pattern_cons_split {c : Char} {t r : List Char} :
    (c :: t) <:+: (c :: r) ↔ (t <+: r ∨ (c :: t) <:+: r) := by
  constructor
  · rintro ⟨u, v, huv⟩
    cases u with
    | nil =>
      left
      simp only [List.nil_append, List.cons_append] at huv
      injection huv with _ h2
      exact ⟨v, h2⟩
    | cons x u2 =>
      right
      simp only [List.cons_append] at huv
      injection huv with _ h2
      exact ⟨u2, v, h2⟩
  · rintro (⟨v, hv⟩ | h)
    · exact ⟨[], v, by simp [hv]⟩
    · exact contained_cons c h

theorem not_prefix_head {a b : Char} {l m : List Char} (h : a ≠ b) :
    ¬ (a :: l <+: b :: m) := by
  simp [List.cons_prefix_cons, h]

theorem not_prefix_head3 {a1 a2 a3 b1 b2 b3 : Char} {l m : List Char} (h : a3 ≠ b3) :
    ¬ (a1 :: a2 :: a3 :: l <+: b1 :: b2 :: b3 :: m) := by
  simp [List.cons_prefix_cons, h]

theorem closing_not_embedded {c : Char} {t part1 part2 t2 : List Char}
    (hc1 : c ∉ part1) (hc2 : c ∉ part2) (hc3 : c ∉ t2)
    (hm1 : ¬ (t <+: part2 ++ c :: t2)) (hm2 : ¬ (t <+: t2)) :
    ¬ ((c :: t) <:+: (part1 ++ c :: (part2 ++ c :: t2))) := by
  intro h
  have h1 := pattern_skip_block hc1 h
  rcases pattern_cons_split.mp h1 with hp | h2
  · exact hm1 hp
  · have h3 := pattern_skip_block hc2 h2
    rcases pattern_cons_split.mp h3 with hp | h4
    · exact hm2 hp
    · obtain ⟨u, v, huv⟩ := h4
      apply hc3
      rw [← huv]
      simp

theorem data_nl_votre :
    "\nVotre bon de commande ".data = '\n' :: "Votre bon de commande ".data := by decide

theorem data_votre_head :
    "Votre bon de commande ".data = 'V' :: 'o' :: 't' :: "re bon de commande ".data := by
  decide

theorem data_nl_treasury :
    "\nVous pouvez passer à la trésorerie.".data = '\n' :: treasuryLine.data := by decide

theorem data_nl_transfer_line :
    "\nLe virement a été effectué sur votre compte.".data = '\n' :: transferLine.data := by
  decide

theorem data_treasury_head :
    treasuryLine.data = 'V' :: 'o' :: 'u' :: "s pouvez passer à la trésorerie.".data := by
  decide

theorem data_transfer_line_head :
    transferLine.data = 'L' :: "e virement a été effectué sur votre compte.".data := by
  decide

theorem nl_not_mem_treasury : '\n' ∉ treasuryLine.data := by decide

theorem nl_not_mem_transfer_line : '\n' ∉ transferLine.data := by decide

theorem cash_msg_data (d : String) (b : Beneficiary)
    (h : b.paymentMethod = PaymentMethod.cash) :
    (generateSMSMessage d b).data =
      ("Bonjour ".data ++ b.name.data) ++ '\n' ::
        (("Votre bon de commande ".data ++ b.reference.data ++ " sera payé le ".data ++
            d.data ++ ".".data) ++ '\n' :: treasuryLine.data) := by
  simp only [generateSMSMessage, h]
  simp only [String.data_append, data_nl_votre, data_nl_treasury]
  simp [List.append_assoc, treasuryLine]

theorem transfer_msg_data (d : String) (b : Beneficiary)
    (h : b.paymentMethod = PaymentMethod.transfer) :
    (generateSMSMessage d b).data =
      ("Bonjour ".data ++ b.name.data) ++ '\n' ::
        (("Votre bon de commande ".data ++ b.reference.data ++ " sera payé le ".data ++
            d.data ++ ".".data) ++ '\n' :: transferLine.data) := by
  simp only [generateSMSMessage, h]
  simp only [String.data_append, data_nl_votre, data_nl_transfer_line]
  simp [List.append_assoc, transferLine]

theorem nl_not_mem_part1 {b : Beneficiary} (hn : '\n' ∉ b.name.data) :
    '\n' ∉ "Bonjour ".data ++ b.name.data := by
  intro hmem
  rcases List.mem_append.mp hmem with h | h
  · exact absurd h (by decide)
  · exact hn h

theorem nl_not_mem_part2 {b : Beneficiary} {d : String}
    (hr : '\n' ∉ b.reference.data) (hd : '\n' ∉ d.data) :
    '\n' ∉ ("Votre bon de commande ".data ++ b.reference.data ++ " sera payé le ".data ++
      d.data ++ ".".data) := by
  intro hmem
  rcases List.mem_append.mp hmem with hmem | h
  · rcases List.mem_append.mp hmem with hmem | h
    · rcases List.mem_append.mp hmem with hmem | h
      · rcases List.mem_append.mp hmem with h | h
        · exact absurd h (by decide)
        · exact hr h
      · exact absurd h (by decide)
    · exact hd h
  · exact absurd h (by decide)

/-- C2 (counterexample): a cash beneficiary whose name is the transfer
sentence produces a cash message that does contain the transfer-completed
substring, contradicting the unconditional exclusivity claim. -/
theorem compose_closing_line_cex :
    (Beneficiary.mk "Le virement a été effectué sur votre compte." "0600" "B1"
        PaymentMethod.cash none).paymentMethod = PaymentMethod.cash ∧
    containsSubstring
      (generateSMSMessage "2024-01-01"
        (Beneficiary.mk "Le virement a été effectué sur votre compte." "0600" "B1"
          PaymentMethod.cash none))
      transferLine :=
  ⟨rfl, by decide⟩

/-- C2 (amended): for a beneficiary and date whose name, reference and
date contain no newline, the cash message contains the treasury closing
line, preceded by its newline, and not the transfer one, and the transfer
message the transfer closing line and not the treasury one; without the
restriction a field may itself embed the other closing sentence. -/
theorem compose_closing_line_amended (b : Beneficiary) (d : String)
    (hn : '\n' ∉ b.name.data) (hr : '\n' ∉ b.reference.data) (hd : '\n' ∉ d.data) :
    (b.paymentMethod = PaymentMethod.cash →
      containsSubstring (generateSMSMessage d b) ("\n" ++ treasuryLine) ∧
      ¬ containsSubstring (generateSMSMessage d b) ("\n" ++ transferLine)) ∧
    (b.paymentMethod = PaymentMethod.transfer →
      containsSubstring (generateSMSMessage d b) ("\n" ++ transferLine) ∧
      ¬ containsSubstring (generateSMSMessage d b) ("\n" ++ treasuryLine)) := by
  constructor
  · intro hpm
    have hdata := cash_msg_data d b hpm
    constructor
    · show ("\n" ++ treasuryLine).data <:+: (generateSMSMessage d b).data
      rw [hdata, show ("\n" ++ treasuryLine).data = '\n' :: treasuryLine.data from rfl]
      apply contained_of_suffix
      refine ⟨("Bonjour ".data ++ b.name.data) ++ '\n' ::
        ("Votre bon de commande ".data ++ b.reference.data ++ " sera payé le ".data ++
          d.data ++ ".".data), ?_⟩
      simp
    · show ¬ ("\n" ++ transferLine).data <:+: (generateSMSMessage d b).data
      rw [hdata, show ("\n" ++ transferLine).data = '\n' :: transferLine.data from rfl]
      apply closing_not_embedded (nl_not_mem_part1 hn) (nl_not_mem_part2 hr hd)
        nl_not_mem_treasury
      · rw [data_transfer_line_head, data_votre_head]
        simp only [List.cons_append, List.append_assoc]
        exact not_prefix_head (by decide)
      · rw [data_transfer_line_head, data_treasury_head]
        exact not_prefix_head (by decide)
  · intro hpm
    have hdata := transfer_msg_data d b hpm
    constructor
    · show ("\n" ++ transferLine).data <:+: (generateSMSMessage d b).data
      rw [hdata, show ("\n" ++ transferLine).data = '\n' :: transferLine.data from rfl]
      apply contained_of_suffix
      refine ⟨("Bonjour ".data ++ b.name.data) ++ '\n' ::
        ("Votre bon de commande ".data ++ b.reference.data ++ " sera payé le ".data ++
          d.data ++ ".".data), ?_⟩
      simp
    · show ¬ ("\n" ++ treasuryLine).data <:+: (generateSMSMessage d b).data
      rw [hdata, show ("\n" ++ treasuryLine).data = '\n' :: treasuryLine.data from rfl]
      apply closing_not_embedded (nl_not_mem_part1 hn) (nl_not_mem_part2 hr hd)
        nl_not_mem_transfer_line
      · rw [data_treasury_head, data_votre_head]
        simp only [List.cons_append, List.append_assoc]
        exact not_prefix_head3 (by decide)
      · rw [data_treasury_head, data_transfer_line_head]
        exact not_prefix_head (by decide)

/-- C2 witness: the cash sample record with a plain date. -/
theorem compose_closing_line_amended_witness :
    containsSubstring (generateSMSMessage "2024-01-01" sampleCash) ("\n" ++ treasuryLine) ∧
    ¬ containsSubstring (generateSMSMessage "2024-01-01" sampleCash) ("\n" ++ transferLine) :=
  (compose_closing_line_amended sampleCash "2024-01-01" (by decide) (by decide) (by decide)).1
    rfl

end SMSApp
